import Mathlib

/-!
# Verification of the UALink DL-layer reference implementation

Shallow embedding of the data-link-layer core of the `ualink_private`
repository: CRC-32 (src/crc.cpp), DL flit framing (src/dl_flit.cpp), the
replay buffer and sequence tracker (src/dl_replay.cpp), command flits
(src/dl_command.cpp), DL messages (src/dl_messages.cpp), the outbound
message queue (src/dl_message_queue.cpp) and the receive-side message
processor (src/dl_message_processor.cpp).

Bytes are modelled as natural numbers below 256, 32-bit words as natural
numbers below 2^32; machine truncation is made explicit with `% 2 ^ 32`.
Fixed-size byte arrays are modelled as `List Nat`; the 628-byte flit payload
array is modelled as an index function `Nat → Nat`. C++ functions that throw
are modelled with `Except PackError`.

The repository's `bit_fields/bit_fields.h` (NetworkBitWriter/NetworkBitReader)
is not present under `src/`; its behaviour is modelled from the spec (§4.1:
fields are written MSB-first into the byte stream from a declarative
(name, width) table, values are range-checked on serialize), which the bit
position comments in `include/ualink/dl_messages.h` and `dl_flit.h` confirm.
Packing a field table therefore becomes plain base-2 arithmetic: the first
field occupies the most significant bits.
-/

namespace UALink

/-- Decidable equality for `Except` results (both components decidable). -/
instance {ε α : Type} [DecidableEq ε] [DecidableEq α] : DecidableEq (Except ε α) := fun x y =>
  match x, y with
  | .error a, .error b =>
    if h : a = b then .isTrue (by rw [h]) else .isFalse (by simp [h])
  | .ok a, .ok b =>
    if h : a = b then .isTrue (by rw [h]) else .isFalse (by simp [h])
  | .error _, .ok _ => .isFalse (by simp)
  | .ok _, .error _ => .isFalse (by simp)

/-- Error kinds raised (as C++ exceptions) on the serialize paths. -/
inductive PackError where
  | offsetOutOfRange
  | slotUnsupported
  | headerFieldRange
  | messageBitsRange
  | msgFieldRange
  deriving DecidableEq

/-! ## CRC-32 (src/crc.cpp)

IEEE 802.3 polynomial, MSB-first table-driven implementation, initial
register 0xFFFFFFFF, final complement, big-endian 4-byte result.  -/

/-- CRC-32 polynomial (include/ualink/crc.h, `kCrc32Polynomial`). -/
def kCrc32Polynomial : Nat := 0x04C11DB7

/-- One iteration of the inner loop of `generate_crc32_table`:
shift left, xor the polynomial if the top bit was set (32-bit arithmetic). -/
def crcTableRound (crc : Nat) : Nat :=
  if crc &&& 0x80000000 ≠ 0 then ((crc <<< 1) ^^^ kCrc32Polynomial) % 2 ^ 32
  else (crc <<< 1) % 2 ^ 32

/-- `n` iterations of `crcTableRound`. -/
def crcTableRounds : Nat → Nat → Nat
  | 0, crc => crc
  | n + 1, crc => crcTableRounds n (crcTableRound crc)

/-- Entry `i` of the 256-entry lookup table built by `generate_crc32_table`:
eight shift-xor rounds applied to `i << 24`. -/
def crc32Table (i : Nat) : Nat := crcTableRounds 8 ((i % 256) <<< 24)

/-- One byte step of `compute_crc32`:
`crc = (crc << 8) ^ table[(uint8)((crc >> 24) ^ byte)]` in 32-bit arithmetic. -/
def crc32Step (crc b : Nat) : Nat :=
  ((crc <<< 8) ^^^ crc32Table (((crc >>> 24) ^^^ b) % 256)) % 2 ^ 32

/-- The 32-bit CRC register value of `compute_crc32` over a byte list:
fold from initial register 0xFFFFFFFF, then complement (`crc = ~crc`). -/
def crc32Value (data : List Nat) : Nat :=
  (data.foldl crc32Step 0xFFFFFFFF) ^^^ 0xFFFFFFFF

/-- Split a 32-bit value into its 4 bytes, big-endian (network byte order). -/
def bytes4 (v : Nat) : List Nat :=
  [v / 2 ^ 24 % 256, v / 2 ^ 16 % 256, v / 2 ^ 8 % 256, v % 256]

/-- `compute_crc32`: big-endian 4-byte CRC of a byte sequence. -/
def computeCrc32 (data : List Nat) : List Nat := bytes4 (crc32Value data)

/-! ## Sequence tracker (src/dl_replay.cpp, `DlSequenceTracker`) -/

/-- `kSequenceModulo` from include/ualink/dl_replay.h. -/
def kSequenceModulo : Nat := 512

/-- `DlSequenceTracker::advance`: `expected_seq_ = (expected_seq_ + 1) % kSequenceModulo`. -/
def trackerAdvance (e : Nat) : Nat := (e + 1) % kSequenceModulo

/-- Initial `expected_seq_` (member initializer in dl_replay.h). -/
def trackerInit : Nat := 1

/-- `DlSequenceTracker::reset`: `expected_seq_ = 1`. -/
def trackerReset : Nat := 1

/-- Iterated `advance`. -/
def trackerAdvanceIter : Nat → Nat → Nat
  | 0, e => e
  | n + 1, e => trackerAdvanceIter n (trackerAdvance e)

/-- `DlSequenceTracker::is_duplicate`: behind-the-window test with the
half-window threshold `kSequenceModulo / 2`. -/
def isDuplicate (e s : Nat) : Bool :=
  if s < e then decide (e - s < kSequenceModulo / 2)
  else if e < s then decide (kSequenceModulo / 2 ≤ s - e)
  else false

/-! ## Replay buffer (src/dl_replay.cpp, `DlReplayBuffer`)

The ring of 512 `BufferEntry` slots with `head_`/`tail_`/`count_` always
holds its `count_` valid entries contiguously in insertion order; the buffer
state is therefore represented by the list of valid `(seq_no, flit)` entries
from head to tail.  Stored flits are identified by a natural number. -/

/-- The `is_acked` lambda inside `DlReplayBuffer::process_ack`: the head entry
`oldest` is covered by `ack_seq` if `ack_seq >= oldest`, or (wrap-around case)
if `(ack_seq + kSequenceModulo - oldest) % kSequenceModulo < kSequenceModulo / 2`. -/
def isAckCovered (ackSeq oldest : Nat) : Bool :=
  if oldest ≤ ackSeq then true
  else decide ((ackSeq + kSequenceModulo - oldest) % kSequenceModulo < kSequenceModulo / 2)

/-- `DlReplayBuffer::process_ack`: retire covered entries from the head,
stopping after the entry whose sequence equals `ack_seq`.  Returns the number
of retired entries and the remaining buffer content. -/
def processAck : List (Nat × Nat) → Nat → Nat × List (Nat × Nat)
  | [], _ => (0, [])
  | (s, fl) :: rest, ackSeq =>
    if isAckCovered ackSeq s then
      if s = ackSeq then (1, rest)
      else ((processAck rest ackSeq).1 + 1, (processAck rest ackSeq).2)
    else (0, (s, fl) :: rest)

/-- Search loop of `DlReplayBuffer::process_nak`: on finding the entry with
`nak_seq` the source returns an empty span (`TODO: Implement proper
retransmission span`); it also returns an empty span when no entry matches. -/
def processNakFind : List (Nat × Nat) → Nat → List Nat
  | [], _ => []
  | (s, _) :: rest, nakSeq => if s = nakSeq then [] else processNakFind rest nakSeq

/-- `DlReplayBuffer::process_nak`. -/
def processNak (entries : List (Nat × Nat)) (nakSeq : Nat) : List Nat :=
  if entries.isEmpty then [] else processNakFind entries nakSeq

/-! ## DL flit framing (src/dl_flit.cpp, include/ualink/dl_flit.h) -/

/-- `kDlPayloadBytes`. -/
def kDlPayloadBytes : Nat := 628

/-- `kTlFlitBytes`. -/
def kTlFlitBytes : Nat := 64

/-- `kDlSegmentCount`. -/
def kDlSegmentCount : Nat := 5

/-- `kSegmentPayloadBytes`. -/
def kSegmentPayloadBytes : List Nat := [128, 128, 128, 124, 120]

/-- `kSegmentPayloadOffsets`. -/
def kSegmentPayloadOffsets : List Nat := [0, 128, 256, 384, 508]

/-- A TL flit: 64 data bytes plus the 2-bit message field carried in the
owning segment header slot (`struct TlFlit`). -/
structure TlFlit where
  data : List Nat
  messageField : Nat
  deriving DecidableEq

/-- `struct ExplicitFlitHeaderFields`. -/
structure ExplicitFlitHeaderFields where
  op : Nat
  payload : Bool
  flitSeqNo : Nat
  deriving DecidableEq

/-- `struct CommandFlitHeaderFields`. -/
structure CommandFlitHeaderFields where
  op : Nat
  payload : Bool
  ackReqSeq : Nat
  flitSeqLo : Nat
  deriving DecidableEq

/-- `struct SegmentHeaderFields`. -/
structure SegmentHeaderFields where
  dlAltSector : Bool
  message0 : Nat
  tlFlit0Present : Bool
  message1 : Nat
  tlFlit1Present : Bool
  deriving DecidableEq

/-- The all-clear segment header fields (value initialization in C++). -/
def segFieldsZero : SegmentHeaderFields :=
  { dlAltSector := false, message0 := 0, tlFlit0Present := false,
    message1 := 0, tlFlit1Present := false }

/-- Modelled from the spec: the repository's `bit_fields/bit_fields.h`
(NetworkBitWriter / NetworkBitReader) is absent from src/; per §4.1 a field
table is written MSB-first into the byte stream, so a packed 24-bit header
word goes on the wire as its 3 bytes, most significant first. -/
def bytes3 (v : Nat) : List Nat := [v / 2 ^ 16 % 256, v / 2 ^ 8 % 256, v % 256]

/-- `encode_explicit_flit_header` over `kExplicitFlitHeaderFormat`
(op:3, payload:1, reserved:3, flit_seq_no:9, reserved:8, MSB-first):
range checks as in the source, then the MSB-first bit packing modelled from
the spec (the bit_fields codec is absent from src/). -/
def encodeExplicitFlitHeader (h : ExplicitFlitHeaderFields) : Except PackError (List Nat) :=
  if h.flitSeqNo > 0x1FF then .error .headerFieldRange
  else if h.op > 0x7 then .error .headerFieldRange
  else
    .ok (bytes3 (h.op * 2 ^ 21 + (if h.payload then 1 else 0) * 2 ^ 20 + h.flitSeqNo * 2 ^ 8))

/-- `encode_command_flit_header` over `kCommandFlitHeaderFormat`
(op:3, payload:1, ack_req_seq:9, flit_seq_lo:3, reserved:8, MSB-first;
packing modelled from the spec, the bit_fields codec being absent). -/
def encodeCommandFlitHeader (h : CommandFlitHeaderFields) : Except PackError (List Nat) :=
  if h.ackReqSeq > 0x1FF then .error .headerFieldRange
  else if h.flitSeqLo > 0x7 then .error .headerFieldRange
  else if h.op > 0x7 then .error .headerFieldRange
  else
    .ok (bytes3 (h.op * 2 ^ 21 + (if h.payload then 1 else 0) * 2 ^ 20 +
      h.ackReqSeq * 2 ^ 11 + h.flitSeqLo * 2 ^ 8))

/-- `decode_command_flit_header`: MSB-first field extraction from the 3 header
bytes (never throws). -/
def decodeCommandFlitHeader (bs : List Nat) : CommandFlitHeaderFields :=
  let v := bs.getD 0 0 % 256 * 2 ^ 16 + bs.getD 1 0 % 256 * 2 ^ 8 + bs.getD 2 0 % 256
  { op := v / 2 ^ 21 % 8, payload := v / 2 ^ 20 % 2 ≠ 0,
    ackReqSeq := v / 2 ^ 11 % 512, flitSeqLo := v / 2 ^ 8 % 8 }

/-- `encode_segment_header` over `kSegmentHeaderFormat`
(tl_flit1:1, message1:2, tl_flit0:1, message0:2, reserved:1, dl_alt_sector:1). -/
def encodeSegmentHeader (f : SegmentHeaderFields) : Except PackError Nat :=
  if f.message0 > 0x3 ∨ f.message1 > 0x3 then .error .messageBitsRange
  else
    .ok ((if f.tlFlit1Present then 1 else 0) * 2 ^ 7 + f.message1 * 2 ^ 5 +
      (if f.tlFlit0Present then 1 else 0) * 2 ^ 4 + f.message0 * 2 ^ 2 +
      (if f.dlAltSector then 1 else 0))

/-- `decode_segment_header`. -/
def decodeSegmentHeader (b : Nat) : SegmentHeaderFields :=
  { dlAltSector := b % 2 ≠ 0, message0 := b / 2 ^ 2 % 4, tlFlit0Present := b / 2 ^ 4 % 2 ≠ 0,
    message1 := b / 2 ^ 5 % 4, tlFlit1Present := b / 2 ^ 7 % 2 ≠ 0 }

/-- A 640-byte DL flit (`struct DlFlit`): 3 header bytes, 5 segment header
bytes, the 628-byte payload array (as an index function) and the 4 CRC bytes. -/
structure DlFlit where
  flitHeader : List Nat
  segmentHeaders : List Nat
  payload : Nat → Nat
  crc : List Nat

/-- The 636-byte CRC-covered region: flit header, segment headers, payload
(both `DlSerializer::serialize` and the deserializer/command paths assemble
exactly this buffer before calling `compute_crc32`/`verify_crc32`). -/
def crcCovered (f : DlFlit) : List Nat :=
  f.flitHeader ++ f.segmentHeaders ++ (List.range kDlPayloadBytes).map f.payload

/-- Search loop of `segment_index_for_offset` over (index, start, size). -/
def segIndexFind (off : Nat) : List (Nat × Nat × Nat) → Except PackError Nat
  | [] => .error .offsetOutOfRange
  | (i, start, size) :: rest =>
    if start ≤ off ∧ off < start + size then .ok i else segIndexFind off rest

/-- `segment_index_for_offset`: the segment whose byte range contains `off`;
throws `std::out_of_range` past the last segment. -/
def segmentIndexForOffset (off : Nat) : Except PackError Nat :=
  segIndexFind off [(0, 0, 128), (1, 128, 128), (2, 256, 128), (3, 384, 124), (4, 508, 120)]

/-- `segment_slot_for_offset`: slot 0 at the segment start, slot 1 at
start + 64; any other delta throws `std::invalid_argument`. -/
def segmentSlotForOffset (off segIdx : Nat) : Except PackError Nat :=
  let start := kSegmentPayloadOffsets.getD segIdx 0
  let delta := off - start
  if delta = 0 then .ok 0
  else if delta = kTlFlitBytes then .ok 1
  else .error .slotUnsupported

/-- `std::copy_n(src.begin(), 64, payload.begin() + off)` on the payload
array viewed as an index function. -/
def copyAt (p : Nat → Nat) (off : Nat) (d : List Nat) : Nat → Nat :=
  fun j => if off ≤ j ∧ j < off + kTlFlitBytes then d.getD (j - off) 0 else p j

/-- Record a packed TL flit in slot `slot` of segment `segIdx`
(the `if (slot == 0) … else …` bookkeeping in the pack loop). -/
def setSegField (segs : List SegmentHeaderFields) (segIdx slot msg : Nat) :
    List SegmentHeaderFields :=
  let f := segs.getD segIdx segFieldsZero
  segs.set segIdx
    (if slot = 0 then { f with tlFlit0Present := true, message0 := msg }
     else { f with tlFlit1Present := true, message1 := msg })

/-- The pack loop of `DlSerializer::serialize`: TL flit number `idx` goes to
payload offset `idx * 64`; resolve its segment and slot, copy the 64 data
bytes, record the slot's presence bit and 2-bit message field. -/
def packLoop : List TlFlit → Nat → (Nat → Nat) → List SegmentHeaderFields →
    Except PackError ((Nat → Nat) × List SegmentHeaderFields)
  | [], _, p, segs => .ok (p, segs)
  | t :: rest, idx, p, segs =>
    match segmentIndexForOffset (idx * kTlFlitBytes) with
    | .error e => .error e
    | .ok segIdx =>
      match segmentSlotForOffset (idx * kTlFlitBytes) segIdx with
      | .error e => .error e
      | .ok slot =>
        packLoop rest (idx + 1) (copyAt p (idx * kTlFlitBytes) t.data)
          (setSegField segs segIdx slot (t.messageField % 4))

/-- `DlSerializer::serialize`: encode the explicit header, pack
`min(inputs, 628 / 64)` TL flits, encode the 5 segment headers, CRC the
636 covered bytes.  Returns the flit and the packed count
(`flits_serialized`). -/
def serialize (tlFlits : List TlFlit) (h : ExplicitFlitHeaderFields) :
    Except PackError (DlFlit × Nat) :=
  match encodeExplicitFlitHeader h with
  | .error e => .error e
  | .ok hdrBytes =>
    match packLoop (tlFlits.take (min tlFlits.length (kDlPayloadBytes / kTlFlitBytes))) 0
        (fun _ => 0) (List.replicate kDlSegmentCount segFieldsZero) with
    | .error e => .error e
    | .ok (p, segs) =>
      match segs.mapM encodeSegmentHeader with
      | .error e => .error e
      | .ok segBytes =>
        .ok ({ flitHeader := hdrBytes, segmentHeaders := segBytes, payload := p,
               crc := computeCrc32 (hdrBytes ++ segBytes ++
                 (List.range kDlPayloadBytes).map p) },
             min tlFlits.length (kDlPayloadBytes / kTlFlitBytes))

/-- Read 64 payload bytes starting at `off`. -/
def extract64 (p : Nat → Nat) (off : Nat) : List Nat :=
  (List.range kTlFlitBytes).map (fun k => p (off + k))

/-- One segment of `DlDeserializer::deserialize`: lift slot 0 when present
and the segment holds at least 64 bytes, then slot 1 when present and the
segment holds at least 128 bytes. -/
def deserializeSeg (f : DlFlit) (k : Nat) : List TlFlit :=
  let h := decodeSegmentHeader (f.segmentHeaders.getD k 0)
  let off := kSegmentPayloadOffsets.getD k 0
  let size := kSegmentPayloadBytes.getD k 0
  (if h.tlFlit0Present ∧ kTlFlitBytes ≤ size then
    [{ data := extract64 f.payload off, messageField := h.message0 }] else []) ++
  (if h.tlFlit1Present ∧ 2 * kTlFlitBytes ≤ size then
    [{ data := extract64 f.payload (off + kTlFlitBytes), messageField := h.message1 }] else [])

/-- `DlDeserializer::deserialize`: emit lifted TL flits in segment order. -/
def deserialize (f : DlFlit) : List TlFlit :=
  ((List.range kDlSegmentCount).map (deserializeSeg f)).flatten

/-- `DlDeserializer::deserialize_with_crc_check`: recompute the CRC over the
636 covered bytes; on mismatch return none, otherwise deserialize. -/
def deserializeWithCrcCheck (f : DlFlit) : Option (List TlFlit) :=
  if computeCrc32 (crcCovered f) = f.crc then some (deserialize f) else none

/-! ## Command flits (src/dl_command.cpp)

`DlCommandOp::kAck = 1`, `DlCommandOp::kNak = 2` (include/ualink/dl_command.h).
The command processor's callbacks are modelled as registered: the result
records the callback argument that a registered callback would receive,
together with the statistics deltas and the consumed flag. -/

/-- The command flit built by `create_ack` / `create_nak` around a 3-byte
header: zero segment headers and payload, then the CRC over the 636 covered
bytes. -/
def commandFlitOfHeader (hdr : List Nat) : DlFlit :=
  let f0 : DlFlit := { flitHeader := hdr, segmentHeaders := List.replicate kDlSegmentCount 0,
                       payload := fun _ => 0, crc := [0, 0, 0, 0] }
  { f0 with crc := computeCrc32 (crcCovered f0) }

/-- `CommandFactory::create_ack`: command header with op = kAck (1),
payload = false, `flit_seq_lo & 0x7`; zero segment headers and payload;
CRC over the 636 covered bytes. -/
def createAck (ackSeq flitSeqLo : Nat) : Except PackError DlFlit :=
  (encodeCommandFlitHeader
    { op := 1, payload := false, ackReqSeq := ackSeq, flitSeqLo := flitSeqLo % 8 }).map
    commandFlitOfHeader

/-- `CommandFactory::create_nak`: as `create_ack` with op = kNak (2). -/
def createNak (nakSeq flitSeqLo : Nat) : Except PackError DlFlit :=
  (encodeCommandFlitHeader
    { op := 2, payload := false, ackReqSeq := nakSeq, flitSeqLo := flitSeqLo % 8 }).map
    commandFlitOfHeader

/-- Observable outcome of `DlCommandProcessor::process_flit`: the returned
flag, the statistics deltas and the argument passed to the (registered)
ack / nak callback, if any. -/
structure CmdProcResult where
  consumed : Bool
  acksReceived : Nat
  naksReceived : Nat
  ackCallbackArg : Option Nat
  nakCallbackArg : Option Nat
  deriving DecidableEq

/-- `DlCommandProcessor::process_flit`: decode the command header; payload
flits are not consumed; for Ack/Nak verify the CRC over the covered region
(`verify_command_crc`), then count and fire the callback with `ack_req_seq`;
any other opcode is not consumed. -/
def processFlit (f : DlFlit) : CmdProcResult :=
  let h := decodeCommandFlitHeader f.flitHeader
  if h.payload then
    { consumed := false, acksReceived := 0, naksReceived := 0,
      ackCallbackArg := none, nakCallbackArg := none }
  else if h.op = 1 then
    if f.crc = computeCrc32 (crcCovered f) then
      { consumed := true, acksReceived := 1, naksReceived := 0,
        ackCallbackArg := some h.ackReqSeq, nakCallbackArg := none }
    else
      { consumed := true, acksReceived := 0, naksReceived := 0,
        ackCallbackArg := none, nakCallbackArg := none }
  else if h.op = 2 then
    if f.crc = computeCrc32 (crcCovered f) then
      { consumed := true, acksReceived := 0, naksReceived := 1,
        ackCallbackArg := none, nakCallbackArg := some h.ackReqSeq }
    else
      { consumed := true, acksReceived := 0, naksReceived := 0,
        ackCallbackArg := none, nakCallbackArg := none }
  else
    { consumed := false, acksReceived := 0, naksReceived := 0,
      ackCallbackArg := none, nakCallbackArg := none }

/-! ## DL messages (src/dl_messages.cpp, include/ualink/dl_messages.h)

Each message serializes to one 32-bit DWord (UART Stream Transport: a header
DWord followed by its payload DWords).  DWords are represented by their
32-bit value; the wire bytes are its big-endian split (`store_be32` /
`load_be32` are the exact inverse pair for values below 2^32).  Field
positions follow the format tables of dl_messages.h: `compressed` at bit 0,
`mclass` at bits 5:2, `mtype` at bits 8:6, message fields above.  The
MSB-first placement itself is modelled from the spec (§4.1, §6.2), the
bit_fields codec being absent from src/. -/

/-- `struct DlMsgCommon`. -/
structure DlMsgCommon where
  mtype : Nat
  mclass : Nat
  deriving DecidableEq

/-- The `DlMessage` variant (include/ualink/dl_message_queue.h). -/
inductive DlMessage where
  | noOp (common : DlMsgCommon)
  | tlRate (rate : Nat) (ack : Bool) (common : DlMsgCommon)
  | deviceId (valid : Bool) (ty : Nat) (id : Nat) (ack : Bool) (common : DlMsgCommon)
  | portId (valid : Bool) (portNumber : Nat) (ack : Bool) (common : DlMsgCommon)
  | uartResetReq (allStreams : Bool) (streamId : Nat) (common : DlMsgCommon)
  | uartResetRsp (status : Nat) (allStreams : Bool) (streamId : Nat) (common : DlMsgCommon)
  | uartTransport (streamId : Nat) (common : DlMsgCommon) (payloadDwords : List Nat)
  | uartCredit (dataFcSeq : Nat) (streamId : Nat) (common : DlMsgCommon)
  | channelNeg (channelResponse channelCommand channelTarget : Nat) (common : DlMsgCommon)
  deriving DecidableEq

/-- `validate_common`: mtype fits 3 bits, mclass fits 4 bits. -/
def validateCommon (c : DlMsgCommon) : Except PackError Unit :=
  if c.mtype ≤ 7 ∧ c.mclass ≤ 15 then .ok () else .error .msgFieldRange

/-- The common low bits of every header DWord: mtype at bits 8:6, mclass at
bits 5:2 (reserved bit 1 and compressed bit 0 are zero). -/
def commonBits (c : DlMsgCommon) : Nat := c.mtype * 2 ^ 6 + c.mclass * 2 ^ 2

/-- `serialize_no_op_message` (`kNoOpMessageFormat`). -/
def serializeNoOp (c : DlMsgCommon) : Except PackError Nat := do
  let _ ← validateCommon c
  .ok (commonBits c)

/-- `serialize_tl_rate_notification` (`kTlRateNotificationFormat`:
rate at bits 31:16, ack at bit 12). -/
def serializeTlRate (rate : Nat) (ack : Bool) (c : DlMsgCommon) : Except PackError Nat := do
  let _ ← validateCommon c
  if rate ≤ 0xFFFF then
    .ok (rate * 2 ^ 16 + (if ack then 1 else 0) * 2 ^ 12 + commonBits c)
  else .error .msgFieldRange

/-- `serialize_device_id_message` (`kDeviceIdFormat`: valid at bit 31,
type at bits 30:29, id at bits 25:16, ack at bit 12). -/
def serializeDeviceId (valid : Bool) (ty id : Nat) (ack : Bool) (c : DlMsgCommon) :
    Except PackError Nat := do
  let _ ← validateCommon c
  if ty ≤ 3 ∧ id ≤ 0x3FF then
    .ok ((if valid then 1 else 0) * 2 ^ 31 + ty * 2 ^ 29 + id * 2 ^ 16 +
      (if ack then 1 else 0) * 2 ^ 12 + commonBits c)
  else .error .msgFieldRange

/-- `serialize_port_id_message` (`kPortIdFormat`: valid at bit 31,
port_number at bits 27:16, ack at bit 12). -/
def serializePortId (valid : Bool) (portNumber : Nat) (ack : Bool) (c : DlMsgCommon) :
    Except PackError Nat := do
  let _ ← validateCommon c
  if portNumber ≤ 0xFFF then
    .ok ((if valid then 1 else 0) * 2 ^ 31 + portNumber * 2 ^ 16 +
      (if ack then 1 else 0) * 2 ^ 12 + commonBits c)
  else .error .msgFieldRange

/-- `serialize_uart_stream_reset_request` (`kUartStreamResetRequestFormat`:
all_streams at bit 12, stream_id at bits 11:9). -/
def serializeUartResetReq (allStreams : Bool) (streamId : Nat) (c : DlMsgCommon) :
    Except PackError Nat := do
  let _ ← validateCommon c
  if streamId ≤ 7 then
    .ok ((if allStreams then 1 else 0) * 2 ^ 12 + streamId * 2 ^ 9 + commonBits c)
  else .error .msgFieldRange

/-- `serialize_uart_stream_reset_response` (`kUartStreamResetResponseFormat`:
status at bits 15:13, all_streams at bit 12, stream_id at bits 11:9). -/
def serializeUartResetRsp (status : Nat) (allStreams : Bool) (streamId : Nat)
    (c : DlMsgCommon) : Except PackError Nat := do
  let _ ← validateCommon c
  if status ≤ 7 ∧ streamId ≤ 7 then
    .ok (status * 2 ^ 13 + (if allStreams then 1 else 0) * 2 ^ 12 +
      streamId * 2 ^ 9 + commonBits c)
  else .error .msgFieldRange

/-- `serialize_uart_stream_transport_message`: header DWord with
length = payload_dwords − 1 at bits 31:27 and stream_id at bits 11:9
(`kUartStreamTransportHeaderFormat`), followed by the payload DWords;
payload must hold 1..32 DWords. -/
def serializeUartTransport (streamId : Nat) (c : DlMsgCommon) (payloadDwords : List Nat) :
    Except PackError (List Nat) := do
  let _ ← validateCommon c
  if streamId > 7 then .error .msgFieldRange
  else if payloadDwords.isEmpty then .error .msgFieldRange
  else if payloadDwords.length > 32 then .error .msgFieldRange
  else
    .ok (((payloadDwords.length - 1) * 2 ^ 27 + streamId * 2 ^ 9 + commonBits c)
      :: payloadDwords)

/-- `serialize_uart_stream_credit_update` (`kUartStreamCreditUpdateFormat`:
data_fc_seq at bits 31:20, stream_id at bits 11:9). -/
def serializeUartCredit (dataFcSeq streamId : Nat) (c : DlMsgCommon) :
    Except PackError Nat := do
  let _ ← validateCommon c
  if dataFcSeq ≤ 0xFFF ∧ streamId ≤ 7 then
    .ok (dataFcSeq * 2 ^ 20 + streamId * 2 ^ 9 + commonBits c)
  else .error .msgFieldRange

/-- `serialize_channel_negotiation` (`kChannelNegotiationFormat`:
channel_response at bits 27:24, channel_command at bits 23:20,
channel_target at bits 19:16). -/
def serializeChannelNeg (channelResponse channelCommand channelTarget : Nat)
    (c : DlMsgCommon) : Except PackError Nat := do
  let _ ← validateCommon c
  if channelResponse ≤ 15 ∧ channelCommand ≤ 15 ∧ channelTarget ≤ 15 then
    .ok (channelResponse * 2 ^ 24 + channelCommand * 2 ^ 20 +
      channelTarget * 2 ^ 16 + commonBits c)
  else .error .msgFieldRange

/-! ## Outbound message queue (src/dl_message_queue.cpp) -/

/-- `enum class MessageGroup` (kBasic, kControl, kUart, kNone). -/
inductive MessageGroup where
  | basic
  | control
  | uart
  | nogroup
  deriving DecidableEq

/-- `DlMessageQueue::get_message_group`. -/
def getMessageGroup : DlMessage → MessageGroup
  | .noOp _ => .basic
  | .tlRate _ _ _ => .basic
  | .deviceId _ _ _ _ _ => .basic
  | .portId _ _ _ _ => .basic
  | .channelNeg _ _ _ _ => .control
  | .uartResetReq _ _ _ => .uart
  | .uartResetRsp _ _ _ _ => .uart
  | .uartTransport _ _ _ => .uart
  | .uartCredit _ _ _ => .uart

/-- `DlMessageQueue::serialize_message`: the DWord list for a message
(one DWord for all types except UART Stream Transport). -/
def serializeMessage : DlMessage → Except PackError (List Nat)
  | .noOp c => do
    let w ← serializeNoOp c
    .ok [w]
  | .tlRate rate ack c => do
    let w ← serializeTlRate rate ack c
    .ok [w]
  | .deviceId valid ty id ack c => do
    let w ← serializeDeviceId valid ty id ack c
    .ok [w]
  | .portId valid portNumber ack c => do
    let w ← serializePortId valid portNumber ack c
    .ok [w]
  | .uartResetReq allStreams streamId c => do
    let w ← serializeUartResetReq allStreams streamId c
    .ok [w]
  | .uartResetRsp status allStreams streamId c => do
    let w ← serializeUartResetRsp status allStreams streamId c
    .ok [w]
  | .uartTransport streamId c payloadDwords => serializeUartTransport streamId c payloadDwords
  | .uartCredit dataFcSeq streamId c => do
    let w ← serializeUartCredit dataFcSeq streamId c
    .ok [w]
  | .channelNeg resp cmd tgt c => do
    let w ← serializeChannelNeg resp cmd tgt c
    .ok [w]

/-- `DlMessageQueue` state: the three class FIFOs, the round-robin cursor
and the UART Stream Transport multi-DWord lock
(`UartTransportState{remaining_dwords, in_progress}`). -/
structure QueueState where
  basicQ : List DlMessage
  controlQ : List DlMessage
  uartQ : List DlMessage
  lastServed : MessageGroup
  uartRemaining : List Nat
  uartInProgress : Bool
  deriving DecidableEq

/-- A freshly constructed `DlMessageQueue`. -/
def emptyQueue : QueueState :=
  { basicQ := [], controlQ := [], uartQ := [], lastServed := .nogroup,
    uartRemaining := [], uartInProgress := false }

/-- `DlMessageQueue::enqueue`: push onto the FIFO of the message's group. -/
def enqueueMsg (st : QueueState) (msg : DlMessage) : QueueState :=
  match getMessageGroup msg with
  | .basic => { st with basicQ := st.basicQ ++ [msg] }
  | .control => { st with controlQ := st.controlQ ++ [msg] }
  | .uart => { st with uartQ := st.uartQ ++ [msg] }
  | .nogroup => st

/-- Whether a group's FIFO is non-empty (the `has_messages` switch in
`select_next_group`). -/
def groupHasMessages (st : QueueState) : MessageGroup → Bool
  | .basic => !st.basicQ.isEmpty
  | .control => !st.controlQ.isEmpty
  | .uart => !st.uartQ.isEmpty
  | .nogroup => false

/-- `DlMessageQueue::select_next_group`: UART while the transport lock is
held; otherwise scan [Basic, Control, Uart] starting one position after
`last_served_group_` and take the first non-empty queue. -/
def selectNextGroup (st : QueueState) : MessageGroup :=
  if st.uartInProgress then .uart
  else
    let order : List MessageGroup := [.basic, .control, .uart]
    let start : Nat :=
      match st.lastServed with
      | .basic => 1
      | .control => 2
      | .uart => 0
      | .nogroup => 0
    match ((List.range 3).map (fun i => order.getD ((start + i) % 3) .nogroup)).find?
      (groupHasMessages st) with
    | some g => g
    | none => .nogroup

/-- `DlMessageQueue::pop_from_group`. -/
def popFromGroup (st : QueueState) : MessageGroup → Option (DlMessage × QueueState)
  | .basic =>
    match st.basicQ with
    | [] => none
    | m :: rest => some (m, { st with basicQ := rest })
  | .control =>
    match st.controlQ with
    | [] => none
    | m :: rest => some (m, { st with controlQ := rest })
  | .uart =>
    match st.uartQ with
    | [] => none
    | m :: rest => some (m, { st with uartQ := rest })
  | .nogroup => none

/-- Steps 2-7 of `DlMessageQueue::pop_next_dword`: select a group, pop and
serialize its front message, stash DWords 1..n of a multi-DWord message under
the UART lock, update `last_served_group_`, emit DWord 0. -/
def popSelect (st : QueueState) : Except PackError (Option Nat × QueueState) :=
  match popFromGroup st (selectNextGroup st) with
  | none => .ok (none, st)
  | some (msg, st2) => do
    let dwords ← serializeMessage msg
    match dwords with
    | [] => .ok (none, st2)
    | d :: rest =>
      let st3 :=
        if rest.isEmpty then st2
        else { st2 with uartRemaining := st2.uartRemaining ++ rest, uartInProgress := true }
      .ok (some d, { st3 with lastServed := selectNextGroup st })

/-- `DlMessageQueue::pop_next_dword`: while the UART transport lock is held,
drain `remaining_dwords` (clearing the lock on the last one); an empty
remainder clears the lock and falls through to group selection. -/
def popNextDword (st : QueueState) : Except PackError (Option Nat × QueueState) :=
  if st.uartInProgress then
    match st.uartRemaining with
    | d :: rest =>
      .ok (some d, { st with uartRemaining := rest, uartInProgress := !rest.isEmpty })
    | [] => popSelect { st with uartInProgress := false }
  else popSelect st

/-- The DWords returned by `n` successive `pop_next_dword` calls. -/
def popValues : QueueState → Nat → Except PackError (List (Option Nat))
  | _, 0 => .ok []
  | st, n + 1 => do
    let (d, st2) ← popNextDword st
    let rest ← popValues st2 n
    .ok (d :: rest)

/-! ## Receive-side message processor (src/dl_message_processor.cpp)

`process_dword` extracts `mclass` from bits 31:30 of the DWord (the top two
bits of its first byte) and `mtype` from bits 29:27, and dispatches to the
Basic / Control / UART handler; handlers throw on unknown mtype, which
`process_dword` catches, counting a deserialization error.  Registered
callbacks are modelled as boolean flags; the channel-negotiation FSM, the
basic-timeout record and the UART reassembly state are carried in the state. -/

/-- `enum class ChannelState`. -/
inductive ChannelState where
  | offline
  | requestSent
  | online
  | offlineRequested
  deriving DecidableEq

/-- Which callbacks are registered on the processor. -/
structure ProcCallbacks where
  noopCb : Bool
  tlRateCb : Bool
  deviceIdCb : Bool
  portIdCb : Bool
  controlCb : Bool
  uartResetReqCb : Bool
  uartResetRspCb : Bool
  uartTransportCb : Bool
  uartCreditCb : Bool
  deriving DecidableEq

/-- The statistics counters touched by `process_dword`. -/
structure ProcStats where
  basicReceived : Nat
  controlReceived : Nat
  uartReceived : Nat
  deserializationErrors : Nat
  deriving DecidableEq

/-- `BasicTimeoutState` (waiting_for_response, request_time_us, sequence_id). -/
structure BasicTimeoutState where
  waitingForResponse : Bool
  requestTimeUs : Nat
  sequenceId : Nat
  deriving DecidableEq

/-- `UartReassemblyState`. -/
structure UartReassemblyState where
  inProgress : Bool
  streamId : Nat
  accumulatedDwords : List Nat
  deriving DecidableEq

/-- `DlMessageProcessor` state. -/
structure MsgProcState where
  callbacks : ProcCallbacks
  channel : ChannelState
  basicTimeout : BasicTimeoutState
  uartReassembly : UartReassemblyState
  stats : ProcStats
  deriving DecidableEq

/-- Byte 0 (most significant byte) of a DWord value. -/
def dwordByte0 (w : Nat) : Nat := w / 2 ^ 24 % 256

/-- The mclass field as read by `process_dword`: bits 7:6 of byte 0. -/
def procMclass (w : Nat) : Nat := dwordByte0 w / 64 % 4

/-- The mtype field as read by the dispatch helpers: bits 5:3 of byte 0. -/
def procMtype (w : Nat) : Nat := dwordByte0 w / 8 % 8

/-- The `compressed` flag of every DL message format: bit 0 of the DWord
(checked by each `deserialize_*`, which returns nullopt when set). -/
def dwordCompressed (w : Nat) : Nat := w % 2

/-- The `ack` bit of the Device ID / Port ID formats: bit 12. -/
def dwordAckBit (w : Nat) : Bool := w / 2 ^ 12 % 2 ≠ 0

/-- `cancel_basic_timeout`. -/
def cancelBasicTimeout (st : MsgProcState) : MsgProcState :=
  { st with basicTimeout := { st.basicTimeout with waitingForResponse := false } }

/-- The channel-negotiation state update in `dispatch_control_message`:
Request (0) moves Offline to RequestSent; Ack (1) moves RequestSent to
Online; NAck (2) moves RequestSent back to Offline; Pending (3) and unknown
commands leave the state unchanged. -/
def channelFsmStep (cs : ChannelState) (command : Nat) : ChannelState :=
  if command = 0 then (if cs = .offline then .requestSent else cs)
  else if command = 1 then (if cs = .requestSent then .online else cs)
  else if command = 2 then (if cs = .requestSent then .offline else cs)
  else cs

/-- `dispatch_basic_message`; `none` models the `std::runtime_error` thrown
on an unknown basic mtype. -/
def dispatchBasic (st : MsgProcState) (w : Nat) : Option MsgProcState :=
  let mt := procMtype w
  if mt = 0 then
    -- NoOp: deserialize (compressed check); the callback has no state effect.
    some st
  else if mt = 4 then
    -- TL Rate Notification: on decode success with a callback, cancel a
    -- pending basic timeout.
    if dwordCompressed w = 0 ∧ st.callbacks.tlRateCb then
      if st.basicTimeout.waitingForResponse then some (cancelBasicTimeout st) else some st
    else some st
  else if mt = 5 then
    -- Device ID: cancel the timeout when the ack bit is set.
    if dwordCompressed w = 0 ∧ st.callbacks.deviceIdCb then
      if dwordAckBit w ∧ st.basicTimeout.waitingForResponse then some (cancelBasicTimeout st)
      else some st
    else some st
  else if mt = 6 then
    -- Port ID: cancel the timeout when the ack bit is set.
    if dwordCompressed w = 0 ∧ st.callbacks.portIdCb then
      if dwordAckBit w ∧ st.basicTimeout.waitingForResponse then some (cancelBasicTimeout st)
      else some st
    else some st
  else none

/-- The `channel_command` field of a Channel Negotiation DWord: bits 23:20. -/
def dwordChannelCommand (w : Nat) : Nat := w / 2 ^ 20 % 16

/-- `dispatch_control_message`: only mtype 0b100 (Channel Negotiation) is
known; on decode success with a registered control callback, run the FSM. -/
def dispatchControl (st : MsgProcState) (w : Nat) : Option MsgProcState :=
  if procMtype w = 4 then
    if dwordCompressed w = 0 ∧ st.callbacks.controlCb then
      some { st with channel := channelFsmStep st.channel (dwordChannelCommand w) }
    else some st
  else none

/-- `reset_uart_reassembly`. -/
def resetUartReassembly (st : MsgProcState) : MsgProcState :=
  { st with uartReassembly :=
      { inProgress := false
        streamId := st.uartReassembly.streamId
        accumulatedDwords := [] } }

/-- `dispatch_uart_message`: switch on mtype (0 reset request, 1 reset
response, 2 stream transport header, 3 credit update, otherwise throw);
afterwards, a non-transport UART message arriving during reassembly with
accumulated payload completes the reassembled transport. -/
def dispatchUart (st : MsgProcState) (w : Nat) : Option MsgProcState :=
  let mt := procMtype w
  let afterSwitch : Option MsgProcState :=
    if mt = 0 then some st
    else if mt = 1 then some st
    else if mt = 2 then
      -- Stream Transport header: begin reassembly when none is in progress
      -- (stream_id is read from the low 3 bits of byte 0).
      if !st.uartReassembly.inProgress then
        some { st with uartReassembly :=
          { inProgress := true
            streamId := dwordByte0 w % 8
            accumulatedDwords := [] } }
      else some st
    else if mt = 3 then some st
    else none
  match afterSwitch with
  | none => none
  | some st2 =>
    if st2.uartReassembly.inProgress ∧ mt ≠ 2 then
      if ¬st2.uartReassembly.accumulatedDwords.isEmpty ∧ st2.callbacks.uartTransportCb then
        some (resetUartReassembly st2)
      else some st2
    else some st2

/-- `DlMessageProcessor::process_dword`: branch on the mclass bits; a throw
from a dispatch helper (or the reserved class 0b11) counts a
deserialization error and returns false. -/
def processDword (st : MsgProcState) (w : Nat) : MsgProcState × Bool :=
  let mc := procMclass w
  if mc = 0 then
    match dispatchBasic st w with
    | some st2 =>
      ({ st2 with stats := { st2.stats with basicReceived := st2.stats.basicReceived + 1 } }, true)
    | none =>
      ({ st with stats := { st.stats with
          deserializationErrors := st.stats.deserializationErrors + 1 } }, false)
  else if mc = 1 then
    match dispatchControl st w with
    | some st2 =>
      ({ st2 with stats := { st2.stats with
          controlReceived := st2.stats.controlReceived + 1 } }, true)
    | none =>
      ({ st with stats := { st.stats with
          deserializationErrors := st.stats.deserializationErrors + 1 } }, false)
  else if mc = 2 then
    match dispatchUart st w with
    | some st2 =>
      ({ st2 with stats := { st2.stats with uartReceived := st2.stats.uartReceived + 1 } }, true)
    | none =>
      ({ st with stats := { st.stats with
          deserializationErrors := st.stats.deserializationErrors + 1 } }, false)
  else
    ({ st with stats := { st.stats with
        deserializationErrors := st.stats.deserializationErrors + 1 } }, false)

/-- A freshly constructed `DlMessageProcessor` with only the control
callback registered (the setting of scenario S5). -/
def procInitControlCb : MsgProcState :=
  { callbacks :=
      { noopCb := false
        tlRateCb := false
        deviceIdCb := false
        portIdCb := false
        controlCb := true
        uartResetReqCb := false
        uartResetRspCb := false
        uartTransportCb := false
        uartCreditCb := false },
    channel := .offline,
    basicTimeout := { waitingForResponse := false, requestTimeUs := 0, sequenceId := 0 },
    uartReassembly := { inProgress := false, streamId := 0, accumulatedDwords := [] },
    stats :=
      { basicReceived := 0
        controlReceived := 0
        uartReceived := 0
        deserializationErrors := 0 } }

/-! ## Shared helper lemmas -/

/-- Iterating `advance` from a state below the modulo stays in lockstep with
addition modulo 512. -/
theorem trackerAdvanceIter_eq (k : Nat) : ∀ e : Nat, e < 512 →
    trackerAdvanceIter k e = (e + k) % 512 := by
  induction k with
  | zero =>
    intro e he
    simp [trackerAdvanceIter, Nat.mod_eq_of_lt he]
  | succ n ih =>
    intro e he
    have h1 : trackerAdvanceIter (n + 1) e = trackerAdvanceIter n ((e + 1) % 512) := rfl
    rw [h1, ih ((e + 1) % 512) (Nat.mod_lt _ (by omega))]
    omega

/-- Unfolding the `is_acked` test of `process_ack` into its two arms. -/
theorem isAckCovered_iff (a s : Nat) :
    isAckCovered a s = true ↔ (s ≤ a ∨ (a + 512 - s) % 512 < 256) := by
  unfold isAckCovered kSequenceModulo
  split_ifs with h
  · simp [h]
  · simp only [decide_eq_true_eq]
    constructor
    · intro hlt
      exact Or.inr hlt
    · intro hor
      rcases hor with hle | hlt
      · omega
      · omega

/-- `process_ack` leaves exactly the suffix past the retired prefix. -/
theorem processAck_snd_eq_drop (es : List (Nat × Nat)) (a : Nat) :
    (processAck es a).2 = es.drop (processAck es a).1 := by
  induction es with
  | nil => simp [processAck]
  | cons e rest ih =>
    obtain ⟨s, fl⟩ := e
    simp only [processAck]
    split_ifs with h1 h2
    · simp
    · simpa using ih
    · simp

/-- Position-wise characterization of `process_ack`: entry `i` is retired
exactly when every entry up to and including `i` passes the `is_acked` test
and no entry strictly before `i` carries `ack_seq` itself. -/
theorem processAck_retired_iff (es : List (Nat × Nat)) (a : Nat) :
    ∀ i : Nat, i < es.length →
      (i < (processAck es a).1 ↔
        ((∀ j, j ≤ i → isAckCovered a ((es.getD j (0, 0)).1) = true) ∧
         (∀ j, j < i → (es.getD j (0, 0)).1 ≠ a))) := by
  induction es with
  | nil =>
    intro i hi
    simp at hi
  | cons e rest ih =>
    intro i hi
    obtain ⟨s, fl⟩ := e
    simp only [processAck]
    split_ifs with h1 h2
    · -- head covered and equal to ack_seq: exactly the head is retired
      cases i with
      | zero =>
        simp only [Nat.lt_one_iff]
        constructor
        · intro _
          refine ⟨?_, ?_⟩
          · intro j hj
            interval_cases j
            simpa using h1
          · intro j hj
            omega
        · intro _
          trivial
      | succ m =>
        constructor
        · intro hlt
          omega
        · rintro ⟨_, hne⟩
          exact absurd h2 (hne 0 (Nat.succ_pos m))
    · -- head covered, not the ack_seq: recurse
      cases i with
      | zero =>
        simp only [Nat.succ_pos, true_iff]
        refine ⟨?_, ?_⟩
        · intro j hj
          interval_cases j
          simpa using h1
        · intro j hj
          omega
      | succ m =>
        have hm : m < rest.length := by simpa using Nat.lt_of_succ_lt_succ hi
        have hrec := ih m hm
        constructor
        · intro hlt
          obtain ⟨hcov, hne⟩ := hrec.mp (by omega)
          refine ⟨?_, ?_⟩
          · intro j hj
            cases j with
            | zero => simpa using h1
            | succ j2 => simpa using hcov j2 (by omega)
          · intro j hj
            cases j with
            | zero => simpa using h2
            | succ j2 => simpa using hne j2 (by omega)
        · rintro ⟨hcov, hne⟩
          have : m < (processAck rest a).1 := by
            refine hrec.mpr ⟨?_, ?_⟩
            · intro j hj
              simpa using hcov (j + 1) (by omega)
            · intro j hj
              simpa using hne (j + 1) (by omega)
          omega
    · -- head not covered: nothing is retired
      constructor
      · intro hlt
        omega
      · rintro ⟨hcov, _⟩
        exact absurd (by simpa using hcov 0 (Nat.zero_le i)) (by simpa using h1)

/-- Slot resolution succeeds at the first eight TL-flit offsets: TL flit `m`
(`m ≤ 7`) resolves to segment `m / 2`, slot `m % 2` (TL flit 7, at payload
offset 448, resolves to slot 1 of the 124-byte segment 3). -/
theorem segResolve_ok (m : Nat) (hm : m ≤ 7) :
    segmentIndexForOffset (m * kTlFlitBytes) = .ok (m / 2) ∧
    segmentSlotForOffset (m * kTlFlitBytes) (m / 2) = .ok (m % 2) := by
  interval_cases m <;> exact ⟨rfl, rfl⟩

/-- `copyAt` leaves positions outside the copied 64-byte window unchanged. -/
theorem copyAt_miss (p : Nat → Nat) (off : Nat) (d : List Nat) (j : Nat)
    (h : j < off ∨ off + kTlFlitBytes ≤ j) : copyAt p off d j = p j := by
  have hc : ¬(off ≤ j ∧ j < off + kTlFlitBytes) := by
    have h64 : (kTlFlitBytes : Nat) = 64 := rfl
    omega
  unfold copyAt
  rw [if_neg hc]

/-- `copyAt` places byte `k` of the source at position `off + k`. -/
theorem copyAt_hit (p : Nat → Nat) (off : Nat) (d : List Nat) (k : Nat)
    (hk : k < kTlFlitBytes) : copyAt p off d (off + k) = d.getD k 0 := by
  have hc : off ≤ off + k ∧ off + k < off + kTlFlitBytes := ⟨Nat.le_add_right _ _, by omega⟩
  unfold copyAt
  rw [if_pos hc]
  congr 1
  omega

/-- Stepping the pack loop once when slot resolution succeeds. -/
theorem packLoop_cons_ok (t : TlFlit) (rest : List TlFlit) (idx : Nat) (p : Nat → Nat)
    (segs : List SegmentHeaderFields) (segIdx slot : Nat)
    (h1 : segmentIndexForOffset (idx * kTlFlitBytes) = .ok segIdx)
    (h2 : segmentSlotForOffset (idx * kTlFlitBytes) segIdx = .ok slot) :
    packLoop (t :: rest) idx p segs =
      packLoop rest (idx + 1) (copyAt p (idx * kTlFlitBytes) t.data)
        (setSegField segs segIdx slot (t.messageField % 4)) := by
  simp only [packLoop, h1, h2]

/-- `setSegField` keeps every segment's 2-bit message fields in range. -/
theorem setSegField_bound (segs : List SegmentHeaderFields) (segIdx slot msgRaw : Nat)
    (hb : ∀ g ∈ segs, g.message0 ≤ 3 ∧ g.message1 ≤ 3) :
    ∀ g ∈ setSegField segs segIdx slot (msgRaw % 4), g.message0 ≤ 3 ∧ g.message1 ≤ 3 := by
  intro g hg
  unfold setSegField at hg
  rcases List.mem_or_eq_of_mem_set hg with hmem | heq
  · exact hb g hmem
  · have hfb : (segs.getD segIdx segFieldsZero).message0 ≤ 3 ∧
        (segs.getD segIdx segFieldsZero).message1 ≤ 3 := by
      by_cases hlt : segIdx < segs.length
      · rw [List.getD_eq_getElem segs segFieldsZero hlt]
        exact hb _ (List.getElem_mem hlt)
      · rw [List.getD_eq_default segs segFieldsZero (by omega)]
        exact ⟨by decide, by decide⟩
    subst heq
    split_ifs with hs0
    · exact ⟨by show msgRaw % 4 ≤ 3; omega, hfb.2⟩
    · exact ⟨hfb.1, by show msgRaw % 4 ≤ 3; omega⟩

/-- The pack loop succeeds whenever at most eight TL flits are placed, copies
TL flit `i` to payload offset `(idx + i) · 64`, leaves the payload below
`idx · 64` untouched, and keeps all segment message fields in range. -/
theorem packLoop_spec (ts : List TlFlit) : ∀ (idx : Nat) (p : Nat → Nat)
    (segs : List SegmentHeaderFields), idx + ts.length ≤ 8 →
    (∀ g ∈ segs, g.message0 ≤ 3 ∧ g.message1 ≤ 3) →
    ∃ q segs2,
      packLoop ts idx p segs = .ok (q, segs2) ∧
      (∀ j, j < idx * kTlFlitBytes → q j = p j) ∧
      (∀ i, ∀ hi : i < ts.length, ∀ k, k < kTlFlitBytes →
        q ((idx + i) * kTlFlitBytes + k) = (ts.get ⟨i, hi⟩).data.getD k 0) ∧
      (∀ g ∈ segs2, g.message0 ≤ 3 ∧ g.message1 ≤ 3) := by
  induction ts with
  | nil =>
    intro idx p segs _ hb
    refine ⟨p, segs, rfl, fun j _ => rfl, ?_, hb⟩
    intro i hi
    simp at hi
  | cons t rest ih =>
    intro idx p segs hlen hb
    have hlen2 : idx + 1 + rest.length ≤ 8 := by
      simp only [List.length_cons] at hlen
      omega
    have hidx : idx ≤ 7 := by omega
    obtain ⟨hseg, hslot⟩ := segResolve_ok idx hidx
    have hstep := packLoop_cons_ok t rest idx p segs (idx / 2) (idx % 2) hseg hslot
    obtain ⟨q, segs2, hok, hbelow, hslice, hb3⟩ :=
      ih (idx + 1) (copyAt p (idx * kTlFlitBytes) t.data)
        (setSegField segs (idx / 2) (idx % 2) (t.messageField % 4)) hlen2
        (setSegField_bound segs (idx / 2) (idx % 2) t.messageField hb)
    refine ⟨q, segs2, by rw [hstep]; exact hok, ?_, ?_, hb3⟩
    · intro j hj
      have hj2 : j < idx * 64 := hj
      have h1 : j < (idx + 1) * kTlFlitBytes := by
        show j < (idx + 1) * 64
        omega
      rw [hbelow j h1]
      exact copyAt_miss p _ t.data j (Or.inl hj)
    · intro i hi k hk
      have hk2 : k < 64 := hk
      cases i with
      | zero =>
        have hpos : (idx + 0) * kTlFlitBytes + k = idx * kTlFlitBytes + k := by
          show (idx + 0) * 64 + k = idx * 64 + k
          omega
        have h1 : idx * kTlFlitBytes + k < (idx + 1) * kTlFlitBytes := by
          show idx * 64 + k < (idx + 1) * 64
          omega
        rw [hpos, hbelow _ h1, copyAt_hit p _ t.data k hk]
        rfl
      | succ m =>
        have hm : m < rest.length := by
          simp only [List.length_cons] at hi
          omega
        have hpos : (idx + (m + 1)) * kTlFlitBytes + k = (idx + 1 + m) * kTlFlitBytes + k := by
          show (idx + (m + 1)) * 64 + k = (idx + 1 + m) * 64 + k
          omega
        rw [hpos, hslice m hm k hk]
        rfl

/-- `mapM encode_segment_header` succeeds when every message field is in
range. -/
theorem mapM_encodeSegmentHeader_ok (segs : List SegmentHeaderFields)
    (hb : ∀ g ∈ segs, g.message0 ≤ 3 ∧ g.message1 ≤ 3) :
    ∃ bs : List Nat, segs.mapM encodeSegmentHeader = .ok bs := by
  induction segs with
  | nil => exact ⟨[], rfl⟩
  | cons g rest ih =>
    obtain ⟨bs, hbs⟩ := ih (fun x hx => hb x (List.mem_cons_of_mem _ hx))
    obtain ⟨h0, h1⟩ := hb g (List.mem_cons_self _ _)
    have hc : ¬(g.message0 > 0x3 ∨ g.message1 > 0x3) := by omega
    have henc : encodeSegmentHeader g = .ok ((if g.tlFlit1Present then 1 else 0) * 2 ^ 7 +
        g.message1 * 2 ^ 5 + (if g.tlFlit0Present then 1 else 0) * 2 ^ 4 +
        g.message0 * 2 ^ 2 + (if g.dlAltSector then 1 else 0)) := by
      unfold encodeSegmentHeader
      rw [if_neg hc]
    refine ⟨((if g.tlFlit1Present then 1 else 0) * 2 ^ 7 + g.message1 * 2 ^ 5 +
      (if g.tlFlit0Present then 1 else 0) * 2 ^ 4 + g.message0 * 2 ^ 2 +
      (if g.dlAltSector then 1 else 0)) :: bs, ?_⟩
    rw [List.mapM_cons, henc, hbs]
    rfl

/-- Every flit produced by `DlSerializer::serialize` passes the CRC check of
`deserialize_with_crc_check`: the serializer stamped `crc` with
`compute_crc32` over exactly the covered region the checker recomputes. -/
theorem deserializeWithCrcCheck_of_serialize (tl : List TlFlit)
    (h : ExplicitFlitHeaderFields) (f : DlFlit) (packed : Nat)
    (hser : serialize tl h = .ok (f, packed)) :
    deserializeWithCrcCheck f = some (deserialize f) := by
  unfold serialize at hser
  split at hser
  · exact absurd hser (by simp)
  · split at hser
    · exact absurd hser (by simp)
    · split at hser
      · exact absurd hser (by simp)
      · injection hser with hpair
        injection hpair with hf hpk
        subst hf
        unfold deserializeWithCrcCheck
        split
        · rfl
        · rename_i hne
          exact absurd rfl hne

/-- `encode_command_flit_header` succeeds on in-range fields and produces the
MSB-first packing. -/
theorem encodeCommandFlitHeader_ok (h : CommandFlitHeaderFields) (hs : h.ackReqSeq ≤ 0x1FF)
    (hl : h.flitSeqLo ≤ 7) (ho : h.op ≤ 7) :
    encodeCommandFlitHeader h = .ok (bytes3 (h.op * 2 ^ 21 +
      (if h.payload then 1 else 0) * 2 ^ 20 + h.ackReqSeq * 2 ^ 11 + h.flitSeqLo * 2 ^ 8)) := by
  have h1 : ¬(h.ackReqSeq > 0x1FF) := by omega
  have h2 : ¬(h.flitSeqLo > 0x7) := by omega
  have h3 : ¬(h.op > 0x7) := by omega
  unfold encodeCommandFlitHeader
  rw [if_neg h1, if_neg h2, if_neg h3]

/-- Decoding recovers the in-range fields of a packed command header. -/
theorem decodeCommandFlitHeader_bytes3 (op pb seq lo : Nat) (hop : op ≤ 7) (hpb : pb ≤ 1)
    (hs : seq ≤ 511) (hl : lo ≤ 7) :
    decodeCommandFlitHeader (bytes3 (op * 2 ^ 21 + pb * 2 ^ 20 + seq * 2 ^ 11 + lo * 2 ^ 8)) =
      { op := op, payload := pb ≠ 0, ackReqSeq := seq, flitSeqLo := lo } := by
  unfold decodeCommandFlitHeader bytes3
  simp only [List.getD_cons_zero, List.getD_cons_succ, CommandFlitHeaderFields.mk.injEq]
  refine ⟨by omega, ?_, by omega, by omega⟩
  simp only [decide_eq_decide]
  omega

/-- `process_flit` on the command flit built around a header decoding to an
Ack (op 1, no payload): CRC verifies, the ack statistics and callback fire. -/
theorem processFlit_ack (bs : List Nat) (s l : Nat)
    (hdec : decodeCommandFlitHeader bs =
      { op := 1, payload := false, ackReqSeq := s, flitSeqLo := l }) :
    processFlit (commandFlitOfHeader bs) =
      { consumed := true, acksReceived := 1, naksReceived := 0,
        ackCallbackArg := some s, nakCallbackArg := none } := by
  have hhd : (commandFlitOfHeader bs).flitHeader = bs := rfl
  have hcrc : (commandFlitOfHeader bs).crc =
      computeCrc32 (crcCovered (commandFlitOfHeader bs)) := rfl
  have hp : ¬(({ op := 1, payload := false, ackReqSeq := s, flitSeqLo := l } : CommandFlitHeaderFields).payload = true) := by simp
  unfold processFlit
  rw [hhd, hdec]
  rw [if_neg hp, if_pos rfl, if_pos hcrc]

/-- `process_flit` on the command flit built around a header decoding to a
Nak (op 2, no payload). -/
theorem processFlit_nak (bs : List Nat) (s l : Nat)
    (hdec : decodeCommandFlitHeader bs =
      { op := 2, payload := false, ackReqSeq := s, flitSeqLo := l }) :
    processFlit (commandFlitOfHeader bs) =
      { consumed := true, acksReceived := 0, naksReceived := 1,
        ackCallbackArg := none, nakCallbackArg := some s } := by
  have hhd : (commandFlitOfHeader bs).flitHeader = bs := rfl
  have hcrc : (commandFlitOfHeader bs).crc =
      computeCrc32 (crcCovered (commandFlitOfHeader bs)) := rfl
  have hp : ¬(({ op := 2, payload := false, ackReqSeq := s, flitSeqLo := l } : CommandFlitHeaderFields).payload = true) := by simp
  have hop : ¬(({ op := 2, payload := false, ackReqSeq := s, flitSeqLo := l } : CommandFlitHeaderFields).op = 1) := by simp
  unfold processFlit
  rw [hhd, hdec]
  rw [if_neg hp, if_neg hop, if_pos rfl, if_pos hcrc]

/-! ## Claim theorems -/

set_option maxRecDepth 8000

/-- An all-zero TL flit (64 zero bytes, message field 0). -/
def zeroTlFlit : TlFlit := { data := List.replicate 64 0, messageField := 0 }

/-- A well-formed explicit flit header: payload op, sequence number 1. -/
def hdrSeq1 : ExplicitFlitHeaderFields := { op := 0, payload := true, flitSeqNo := 1 }

/-- C1: evaluating the CRC-checked round trip at 8 TL flits: `serialize`
reports packed = 8, the CRC check passes, but `deserialize_with_crc_check`
returns only the first 7 TL flits.  The serializer places TL flit 7 at
payload offset 448 (slot 1 of segment 3) but the deserializer lifts slot 1
only when the segment holds at least 128 bytes, and segment 3 holds 124 — so
the claimed round-trip identity fails at 8 flits (the repository's own
`dl_flit_test.cpp` asserts an 8-flit round trip). -/
theorem c1_crc_roundtrip_loses_eighth_flit :
    ∃ f : DlFlit, serialize (List.replicate 8 zeroTlFlit) hdrSeq1 = .ok (f, 8) ∧
      deserializeWithCrcCheck f = some (List.replicate 7 zeroTlFlit) := by
  have hval : (serialize (List.replicate 8 zeroTlFlit) hdrSeq1).map
      (fun pr => (deserialize pr.1, pr.2)) = .ok (List.replicate 7 zeroTlFlit, 8) := by rfl
  rcases hs : serialize (List.replicate 8 zeroTlFlit) hdrSeq1 with e | pr
  · rw [hs] at hval
    exact absurd hval (by simp [Except.map])
  · obtain ⟨f, packed⟩ := pr
    rw [hs] at hval
    simp only [Except.map] at hval
    injection hval with hpair
    injection hpair with hdes hpk
    subst hpk
    refine ⟨f, rfl, ?_⟩
    rw [deserializeWithCrcCheck_of_serialize _ _ f 8 hs, hdes]

/-- C2 counterexample: the claim says `serialize` completes without error on
every input list and that the failure branches of segment slot resolution are
unreachable; with 9 TL flits the loop reaches payload offset 512, which is 4
bytes past the start of segment 4, and `segment_slot_for_offset` throws
`std::invalid_argument`. -/
theorem c2_counterexample :
    serialize (List.replicate 9 zeroTlFlit) hdrSeq1 = .error .slotUnsupported := by rfl

/-- C2 (amended): for every list of at most 8 TL flits and every explicit
header with in-range fields (op ≤ 7, flit_seq_no ≤ 511), `serialize`
completes without error, reports packed = min(inputs, 9) (= inputs here),
and copies TL flit i to payload offset i·64; the slot-resolution failure
branch is reachable — it fires at the ninth TL flit (payload offset 512) —
so the original claim's unbounded length cannot stand. -/
theorem c2_serialize_amended (tlFlits : List TlFlit) (h : ExplicitFlitHeaderFields)
    (hlen : tlFlits.length ≤ 8) (hop : h.op ≤ 7) (hseq : h.flitSeqNo ≤ 0x1FF) :
    ∃ f : DlFlit, serialize tlFlits h = .ok (f, min tlFlits.length 9) ∧
      ∀ i, ∀ hi : i < tlFlits.length, ∀ k, k < 64 →
        f.payload (i * 64 + k) = (tlFlits.get ⟨i, hi⟩).data.getD k 0 := by
  have h1 : ¬(h.flitSeqNo > 0x1FF) := by omega
  have h2 : ¬(h.op > 0x7) := by omega
  have henc : encodeExplicitFlitHeader h = .ok (bytes3 (h.op * 2 ^ 21 +
      (if h.payload then 1 else 0) * 2 ^ 20 + h.flitSeqNo * 2 ^ 8)) := by
    unfold encodeExplicitFlitHeader
    rw [if_neg h1, if_neg h2]
  have htake : tlFlits.take (min tlFlits.length (kDlPayloadBytes / kTlFlitBytes)) = tlFlits := by
    have hmin : min tlFlits.length (kDlPayloadBytes / kTlFlitBytes) = tlFlits.length := by
      show min tlFlits.length 9 = tlFlits.length
      omega
    rw [hmin, List.take_length]
  have hrep : ∀ g ∈ List.replicate kDlSegmentCount segFieldsZero,
      g.message0 ≤ 3 ∧ g.message1 ≤ 3 := by
    intro g hg
    rw [List.eq_of_mem_replicate hg]
    exact ⟨by decide, by decide⟩
  obtain ⟨q, segs2, hok, hbelow, hslice, hb2⟩ := packLoop_spec tlFlits 0 (fun _ => 0)
    (List.replicate kDlSegmentCount segFieldsZero) (by omega) hrep
  obtain ⟨bs, hbs⟩ := mapM_encodeSegmentHeader_ok segs2 hb2
  have hser : serialize tlFlits h =
      .ok ({ flitHeader := bytes3 (h.op * 2 ^ 21 +
               (if h.payload then 1 else 0) * 2 ^ 20 + h.flitSeqNo * 2 ^ 8)
             segmentHeaders := bs
             payload := q
             crc := computeCrc32 (bytes3 (h.op * 2 ^ 21 +
               (if h.payload then 1 else 0) * 2 ^ 20 + h.flitSeqNo * 2 ^ 8) ++ bs ++
               (List.range kDlPayloadBytes).map q) },
           min tlFlits.length (kDlPayloadBytes / kTlFlitBytes)) := by
    simp only [serialize, henc, htake, hok, hbs]
  refine ⟨_, hser, ?_⟩
  intro i hi k hk
  simpa [kTlFlitBytes] using hslice i hi k hk

/-- C2 witness: the amended theorem at one zero TL flit and a valid header. -/
theorem c2_serialize_amended_witness :
    ∃ f : DlFlit, serialize [zeroTlFlit] hdrSeq1 = .ok (f, min [zeroTlFlit].length 9) ∧
      ∀ i, ∀ hi : i < [zeroTlFlit].length, ∀ k, k < 64 →
        f.payload (i * 64 + k) = ([zeroTlFlit].get ⟨i, hi⟩).data.getD k 0 :=
  c2_serialize_amended [zeroTlFlit] hdrSeq1 (by decide) (by decide) (by decide)

/-- C9: the spec's known vector says `compute_crc32("123456789")` is
`CB F4 39 26`; the implementation (no bit reflection of input or output)
produces `FC 89 19 18` on those 9 ASCII bytes, so the claim fails on this
input.  `CB F4 39 26` is the check value of the bit-reflected CRC-32
(CRC-32/ISO-HDLC), which this algorithm cannot produce; the repository's own
`crc_test.cpp` asserts `CB F4 39 26` and is contradicted by the code. -/
theorem c9_crc_known_vector_mismatch :
    computeCrc32 [49, 50, 51, 52, 53, 54, 55, 56, 57] = [0xFC, 0x89, 0x19, 0x18] ∧
    computeCrc32 [49, 50, 51, 52, 53, 54, 55, 56, 57] ≠ [0xCB, 0xF4, 0x39, 0x26] := by
  decide

/-- C3 counterexample: the claim says `advance()` in state 511 yields 1 and
that 0 is never reached; in the code `advance` is `(e + 1) % 512`, so state
511 advances to 0, and 0 is reached from the initial state 1 after 511
advances. -/
theorem c3_counterexample :
    trackerAdvance 511 = 0 ∧ trackerAdvanceIter 511 trackerInit = 0 := by decide

/-- C3 (amended): the invariant preserved by the tracker operations is
`expected_seq < 512`; starting from the initial value 1, `advance` maps the
state along `(e + 1) mod 512` — in particular `k` advances from 1 reach
`(1 + k) mod 512`, so the cycle is 1 → 2 → … → 511 → 0 → 1 and the reserved
value 0 is reached after 511 advances; `reset()` yields 1. -/
theorem c3_tracker_amended :
    (∀ e : Nat, e < 512 → trackerAdvance e < 512) ∧
    (∀ k : Nat, trackerAdvanceIter k trackerInit = (1 + k) % 512) ∧
    trackerReset = 1 ∧
    trackerAdvance 511 = 0 ∧
    trackerAdvanceIter 511 trackerInit = 0 := by
  refine ⟨?_, ?_, rfl, by decide, by decide⟩
  · intro e _
    have : (e + 1) % 512 < 512 := Nat.mod_lt _ (by omega)
    simpa [trackerAdvance, kSequenceModulo] using this
  · intro k
    exact trackerAdvanceIter_eq k 1 (by omega)

/-- C3 witness: the amended theorem applied at concrete inputs. -/
theorem c3_tracker_amended_witness :
    trackerAdvance 5 < 512 ∧ trackerAdvanceIter 3 trackerInit = (1 + 3) % 512 :=
  ⟨c3_tracker_amended.1 5 (by decide), c3_tracker_amended.2.1 3⟩

/-- C4 counterexample: the claim's modulo rule says an entry is retired only
when `(ack_seq − seq) mod 511 < 511/2`; for the reachable single-entry buffer
holding sequence 1, `process_ack(300)` retires the entry through the
`ack_seq >= oldest` fast path even though `(300 + 511 − 1) % 511 = 299` is
not below `511 / 2 = 255`. -/
theorem c4_counterexample :
    processAck [(1, 0)] 300 = (1, []) ∧ ¬((300 + 511 - 1) % 511 < 511 / 2) := by decide

/-- C4 (amended): for every buffer content (sequence numbers in the 9-bit
space, head first) and every `ack_seq` below 512, `process_ack` retires
exactly a prefix of the buffer, and entry `i` belongs to that prefix if and
only if every entry `j ≤ i` satisfies the code's coverage rule — `seq ≤
ack_seq` (as unsigned integers), or `(ack_seq + 512 − seq) % 512 < 256` — and
no entry strictly before `i` carries `ack_seq` itself (retirement stops after
the entry whose sequence equals `ack_seq`); the remaining content is the
suffix past the retired prefix. -/
theorem c4_process_ack_amended (es : List (Nat × Nat)) (a : Nat)
    (_hseq : ∀ e ∈ es, e.1 < 512) (_hack : a < 512) (i : Nat) (hi : i < es.length) :
    (i < (processAck es a).1 ↔
      ((∀ j, j ≤ i → (((es.getD j (0, 0)).1 ≤ a) ∨
          ((a + 512 - (es.getD j (0, 0)).1) % 512 < 256))) ∧
       (∀ j, j < i → (es.getD j (0, 0)).1 ≠ a))) ∧
    (processAck es a).2 = es.drop (processAck es a).1 := by
  have hcov : ∀ j : Nat, isAckCovered a ((es.getD j (0, 0)).1) = true ↔
      (((es.getD j (0, 0)).1 ≤ a) ∨ ((a + 512 - (es.getD j (0, 0)).1) % 512 < 256)) :=
    fun j => isAckCovered_iff a ((es.getD j (0, 0)).1)
  refine ⟨?_, processAck_snd_eq_drop es a⟩
  rw [processAck_retired_iff es a i hi]
  constructor
  · rintro ⟨h1, h2⟩
    exact ⟨fun j hj => (hcov j).mp (h1 j hj), h2⟩
  · rintro ⟨h1, h2⟩
    exact ⟨fun j hj => (hcov j).mpr (h1 j hj), h2⟩

/-- C4 witness: the amended theorem applied to the buffer [(3, 0)] with
`ack_seq = 3` at position 0. -/
theorem c4_process_ack_amended_witness :
    (0 < (processAck [(3, 0)] 3).1 ↔
      ((∀ j, j ≤ 0 → ((([(3, 0)].getD j (0, 0)).1 ≤ 3) ∨
          ((3 + 512 - ([(3, 0)].getD j (0, 0)).1) % 512 < 256))) ∧
       (∀ j, j < 0 → ([(3, 0)].getD j (0, 0)).1 ≠ 3))) ∧
    (processAck [(3, 0)] 3).2 = [(3, 0)].drop (processAck [(3, 0)] 3).1 :=
  c4_process_ack_amended [(3, 0)] 3 (by simp) (by decide) 0 (by decide)

/-- C5: the claim (the spec's retransmission contract) requires
`process_nak(R)` on a non-empty buffer containing sequence `R` to return the
buffered flits in order from `R` through the newest; the source finds the
entry and deliberately returns an empty span (`TODO: Implement proper
retransmission span` in dl_replay.cpp).  Evaluated at a buffer holding flits
42, 43 under sequences 1, 2: the replay span for sequence 1 is empty instead
of [42, 43], and likewise for sequence 2. -/
theorem c5_process_nak_empty :
    processNak [(1, 42), (2, 43)] 1 = [] ∧ processNak [(1, 42), (2, 43)] 2 = [] := by
  decide

/-- C6: for every tracker state `expected` in 1..511 and every sequence `s`
in 1..511 whose forward distance `(expected − s) mod 511` (written
`(expected + 511 − s) % 511`) lies in [1, 255], `is_duplicate(s)` returns
true; and `is_duplicate(expected)` returns false. -/
theorem c6_is_duplicate_half_window (e s : Nat) (he1 : 1 ≤ e) (he2 : e ≤ 511)
    (hs1 : 1 ≤ s) (hs2 : s ≤ 511)
    (hd1 : 1 ≤ (e + 511 - s) % 511) (hd2 : (e + 511 - s) % 511 ≤ 255) :
    isDuplicate e s = true ∧ isDuplicate e e = false := by
  constructor
  · unfold isDuplicate kSequenceModulo
    split_ifs with h1 h2
    · simp only [decide_eq_true_eq]
      omega
    · simp only [decide_eq_true_eq]
      omega
    · exfalso
      omega
  · simp [isDuplicate]

/-- C6 witness: at expected = 10, s = 9 the forward distance is 1. -/
theorem c6_is_duplicate_half_window_witness :
    isDuplicate 10 9 = true ∧ isDuplicate 10 10 = false :=
  c6_is_duplicate_half_window 10 9 (by decide) (by decide) (by decide) (by decide)
    (by decide) (by decide)

/-- C7: `serialize_channel_negotiation` places `mclass` (Control = 0b1000) at
bits 5:2 of the DWord, but `process_dword` reads the mclass from bits 31:30,
which are reserved-zero in that format.  Feeding the serialized
ChannelNegotiation Request (word 0x120) and then Ack (word 0x100120) to a
processor in Offline with a control callback registered dispatches both
DWords to the Basic/NoOp handler, so the channel state stays Offline instead
of moving to RequestSent and then Online (the transition asserted by the
claim and by the repository's `test_channel_negotiation_state_machine`). -/
theorem c7_channel_handshake_not_dispatched :
    serializeChannelNeg 0 0 0 { mtype := 4, mclass := 8 } = .ok 288 ∧
    serializeChannelNeg 0 1 0 { mtype := 4, mclass := 8 } = .ok 1048864 ∧
    (processDword procInitControlCb 288).1.channel = .offline ∧
    (processDword (processDword procInitControlCb 288).1 1048864).1.channel = .offline ∧
    (processDword procInitControlCb 288).1.stats.basicReceived = 1 := by decide

/-- The queue of scenario S7: one UART Stream Transport with 3 payload DWords
enqueued first, then one Basic NoOp. -/
def c8Queue : QueueState :=
  enqueueMsg
    (enqueueMsg emptyQueue
      (.uartTransport 1 { mtype := 0, mclass := 1 } [0x11111111, 0x22222222, 0x33333333]))
    (.noOp { mtype := 0, mclass := 0 })

/-- C8: with a UART Transport (3 payload DWords) enqueued before a Basic
NoOp, the claim (spec scenario S7 and the repository's
`test_uart_blocking_other_groups`) expects the first four pops to be the
Transport header and its payload and the fifth the NoOp.  The code's
round-robin starts at Basic when nothing has been served yet, so the first
pop returns the NoOp DWord (0x00000000) and pops 2..5 return the Transport
header (0x10000204) and its payload DWords.  (The atomicity half of the
claim does hold here: once the header is emitted, the payload DWords follow
without interruption.) -/
theorem c8_first_pop_is_noop :
    popValues c8Queue 5 =
      .ok [some 0, some 0x10000204, some 0x11111111, some 0x22222222, some 0x33333333] := by
  decide

/-- C10: for every `ack_seq` in 0..511 and `flit_seq_lo` in 0..7, the flit
built by `create_ack` is accepted by `process_flit` (returns true), passes
the self-generated CRC verification, increments `acks_received` and invokes
the registered ack callback with exactly `ack_seq`; likewise `create_nak`
increments `naks_received` and invokes the nak callback with exactly
`nak_seq`. -/
theorem c10_command_flit_roundtrip (seq lo : Nat) (hs : seq ≤ 511) (_hl : lo ≤ 7) :
    (createAck seq lo).map processFlit =
      .ok { consumed := true, acksReceived := 1, naksReceived := 0,
            ackCallbackArg := some seq, nakCallbackArg := none } ∧
    (createNak seq lo).map processFlit =
      .ok { consumed := true, acksReceived := 0, naksReceived := 1,
            ackCallbackArg := none, nakCallbackArg := some seq } := by
  constructor
  · unfold createAck
    rw [encodeCommandFlitHeader_ok _ (by show seq ≤ 0x1FF; omega)
      (by show lo % 8 ≤ 7; omega) (by show (1 : Nat) ≤ 7; omega)]
    show Except.ok (processFlit (commandFlitOfHeader
      (bytes3 (1 * 2 ^ 21 + 0 * 2 ^ 20 + seq * 2 ^ 11 + lo % 8 * 2 ^ 8)))) = _
    rw [processFlit_ack _ seq (lo % 8)
      (decodeCommandFlitHeader_bytes3 1 0 seq (lo % 8) (by omega) (by omega) (by omega) (by omega))]
  · unfold createNak
    rw [encodeCommandFlitHeader_ok _ (by show seq ≤ 0x1FF; omega)
      (by show lo % 8 ≤ 7; omega) (by show (2 : Nat) ≤ 7; omega)]
    show Except.ok (processFlit (commandFlitOfHeader
      (bytes3 (2 * 2 ^ 21 + 0 * 2 ^ 20 + seq * 2 ^ 11 + lo % 8 * 2 ^ 8)))) = _
    rw [processFlit_nak _ seq (lo % 8)
      (decodeCommandFlitHeader_bytes3 2 0 seq (lo % 8) (by omega) (by omega) (by omega) (by omega))]

/-- C10 witness: the round trip at ack_seq = 5, flit_seq_lo = 2. -/
theorem c10_command_flit_roundtrip_witness :
    (createAck 5 2).map processFlit =
      .ok { consumed := true, acksReceived := 1, naksReceived := 0,
            ackCallbackArg := some 5, nakCallbackArg := none } ∧
    (createNak 5 2).map processFlit =
      .ok { consumed := true, acksReceived := 0, naksReceived := 1,
            ackCallbackArg := none, nakCallbackArg := some 5 } :=
  c10_command_flit_roundtrip 5 2 (by decide) (by decide)

end UALink
